import Mathlib

/-!
Shallow embedding of the Pong simulation core (Ball, Paddle, Game) and
proofs of the specification's testable properties.

JavaScript numbers are modelled as real numbers; `Math.atan2 y x` is
modelled as `Complex.arg ⟨x, y⟩` (same convention: range (-π, π],
`atan2 0 0 = 0`, `atan2 0 x = π` for `x < 0`); `Math.sign` is `Real.sign`;
`Math.random()` draws are passed in explicitly (`u : ℝ` for the unit
draw, `q : Fin 4` for the quadrant draw), so every operation is a pure
function of its state and its random inputs.
-/

noncomputable section

namespace Pong

open Real

/-- `Math.atan2 y x`, modelled via the complex argument. -/
def atan2 (y x : ℝ) : ℝ := Complex.arg ⟨x, y⟩

/-- Rectangle edges, as returned by `getBounds` in `ball.js` / the paddle file. -/
structure Bounds where
  left : ℝ
  right : ℝ
  top : ℝ
  bottom : ℝ

/-- Ball state (`ball.js`): position, canvas size, visual and physics
constants, and the velocity vector.  The `color` field is rendering-only
and omitted. -/
structure Ball where
  x : ℝ
  y : ℝ
  canvasWidth : ℝ
  canvasHeight : ℝ
  radius : ℝ
  initialSpeed : ℝ
  speed : ℝ
  maxSpeed : ℝ
  speedIncrement : ℝ
  maxBounceAngle : ℝ
  velocityX : ℝ
  velocityY : ℝ

/-- `setRandomVelocity()` (ball.js lines 33-48): picks an angle 30°-60°
from the random draw `u ∈ [0,1)`, places it in the quadrant `q`, and sets
the velocity at the current speed. -/
def Ball.setRandomVelocity (b : Ball) (u : ℝ) (q : Fin 4) : Ball :=
  let angle := u * (Real.pi / 6) + Real.pi / 6
  let finalAngle :=
    if q = 0 then angle
    else if q = 1 then Real.pi - angle
    else if q = 2 then Real.pi + angle
    else 2 * Real.pi - angle
  { b with velocityX := Real.cos finalAngle * b.speed,
           velocityY := Real.sin finalAngle * b.speed }

/-- `constructor(x, y, canvasWidth, canvasHeight)` (ball.js lines 5-28):
fixed radius 10, initialSpeed 300, maxSpeed 600, speedIncrement 1.05,
maxBounceAngle π/3, then `setRandomVelocity`.  No argument validation
occurs in the source. -/
def Ball.init (x y canvasWidth canvasHeight : ℝ) (u : ℝ) (q : Fin 4) : Ball :=
  Ball.setRandomVelocity
    { x := x, y := y, canvasWidth := canvasWidth, canvasHeight := canvasHeight,
      radius := 10, initialSpeed := 300, speed := 300, maxSpeed := 600,
      speedIncrement := 1.05, maxBounceAngle := Real.pi / 3,
      velocityX := 0, velocityY := 0 } u q

/-- `update(deltaTime)` (ball.js lines 53-56): explicit Euler step. -/
def Ball.update (b : Ball) (deltaTime : ℝ) : Ball :=
  { b with x := b.x + b.velocityX * deltaTime,
           y := b.y + b.velocityY * deltaTime }

/-- `checkWallCollision()` (ball.js lines 62-80): the top-wall check runs
on the incoming `y`, the bottom-wall check on the possibly clamped `y`;
returns the updated ball and the hit flag. -/
def Ball.checkWallCollision (b : Ball) : Ball × Bool :=
  let p1 : Ball × Bool :=
    if b.y - b.radius ≤ 0 then
      ({ b with y := b.radius, velocityY := |b.velocityY| }, true)
    else (b, false)
  let b1 := p1.1
  if b1.y + b1.radius ≥ b1.canvasHeight then
    ({ b1 with y := b1.canvasHeight - b1.radius, velocityY := -|b1.velocityY| }, true)
  else p1

/-- `getBounds()` (ball.js lines 153-160). -/
def Ball.getBounds (b : Ball) : Bounds :=
  { left := b.x - b.radius, right := b.x + b.radius,
    top := b.y - b.radius, bottom := b.y + b.radius }

/-- Paddle state (the unnamed paddle source file): position, size, canvas
height, role flag and movement/AI constants.  `color` is rendering-only
and omitted. -/
structure Paddle where
  x : ℝ
  y : ℝ
  width : ℝ
  height : ℝ
  canvasHeight : ℝ
  isAI : Bool
  speed : ℝ
  velocity : ℝ
  aiTolerance : ℝ
  aiReturnSpeed : ℝ

/-- `constructor(x, y, width, height, canvasHeight, isAI)` (paddle source
lines 5-23): stores the arguments unchanged, speed 300, velocity 0,
aiTolerance 15, aiReturnSpeed 0.6.  No argument validation occurs in the
source. -/
def Paddle.init (x y width height canvasHeight : ℝ) (isAI : Bool) : Paddle :=
  { x := x, y := y, width := width, height := height,
    canvasHeight := canvasHeight, isAI := isAI,
    speed := 300, velocity := 0, aiTolerance := 15, aiReturnSpeed := 0.6 }

/-- `getBounds()` of the paddle source. -/
def Paddle.getBounds (p : Paddle) : Bounds :=
  { left := p.x, right := p.x + p.width, top := p.y, bottom := p.y + p.height }

/-- `update(deltaTime, inputHandler)` (paddle source lines 28-40): early
return for AI paddles; otherwise integrate by the input direction and
clamp `y` into `[0, canvasHeight - height]`.  The input handler's
`getInputDirection()` is modelled as the `direction` argument. -/
def Paddle.update (p : Paddle) (deltaTime direction : ℝ) : Paddle :=
  if p.isAI then p
  else
    let p1 := { p with velocity := direction }
    let p2 := { p1 with y := p1.y + p1.velocity * p1.speed * deltaTime }
    { p2 with y := max 0 (min (p2.canvasHeight - p2.height) p2.y) }

/-- `updateAI(ball, deltaTime)` (paddle source lines 45-84): early return
for non-AI paddles; track the ball with a dead zone while it approaches,
drift to centre at `speed * aiReturnSpeed` while it recedes, then clamp. -/
def Paddle.updateAI (p : Paddle) (ball : Ball) (deltaTime : ℝ) : Paddle :=
  if !p.isAI then p
  else
    let paddleCenter := p.y + p.height / 2
    let canvasCenter := p.canvasHeight / 2
    let p1 :=
      if ball.velocityX > 0 then
        let ballY := ball.y
        let v : ℝ :=
          if ballY < paddleCenter - p.aiTolerance then -1
          else if ballY > paddleCenter + p.aiTolerance then 1
          else 0
        { p with velocity := v, y := p.y + v * p.speed * deltaTime }
      else
        if paddleCenter < canvasCenter - 10 then
          { p with velocity := 1, y := p.y + 1 * p.speed * p.aiReturnSpeed * deltaTime }
        else if paddleCenter > canvasCenter + 10 then
          { p with velocity := -1, y := p.y + (-1) * p.speed * p.aiReturnSpeed * deltaTime }
        else
          { p with velocity := 0 }
    { p1 with y := max 0 (min (p1.canvasHeight - p1.height) p1.y) }

/-- `reset(x, y)` of the paddle source (lines 109-113). -/
def Paddle.reset (p : Paddle) (x y : ℝ) : Paddle :=
  { p with x := x, y := y, velocity := 0 }

/-- `checkPaddleCollision(paddle)` (ball.js lines 87-107): AABB overlap
test between the ball's bounding square and the paddle's rectangle; on
overlap returns the hit point clamped to `[-1, 1]`, else `none`.  A pure
query: it is a function of the ball and paddle and mutates nothing. -/
def Ball.checkPaddleCollision (b : Ball) (paddle : Paddle) : Option ℝ :=
  let ballBounds := b.getBounds
  let paddleBounds := paddle.getBounds
  if (ballBounds.right ≥ paddleBounds.left ∧ ballBounds.left ≤ paddleBounds.right) ∧
     (ballBounds.bottom ≥ paddleBounds.top ∧ ballBounds.top ≤ paddleBounds.bottom) then
    let paddleCenter := paddle.y + paddle.height / 2
    let hitPoint := (b.y - paddleCenter) / (paddle.height / 2)
    some (max (-1) (min 1 hitPoint))
  else
    none

/-- `increaseSpeed()` (ball.js lines 141-148): cap the grown speed at
`maxSpeed`, then recompose the velocity from `atan2(vy, vx)` at the new
speed. -/
def Ball.increaseSpeed (b : Ball) : Ball :=
  let newSpeed := min (b.speed * b.speedIncrement) b.maxSpeed
  let currentAngle := atan2 b.velocityY b.velocityX
  { b with speed := newSpeed,
           velocityX := Real.cos currentAngle * newSpeed,
           velocityY := Real.sin currentAngle * newSpeed }

/-- `applyPaddleHit(hitPoint)` (ball.js lines 113-136): flip `vx`,
recompose the velocity from the hit-point angle at the current magnitude,
call `increaseSpeed`, then nudge `x` by 2 in the travel direction. -/
def Ball.applyPaddleHit (b : Ball) (hitPoint : ℝ) : Ball :=
  let b1 := { b with velocityX := b.velocityX * (-1) }
  let angle := hitPoint * b1.maxBounceAngle
  let currentSpeed := Real.sqrt (b1.velocityX ^ 2 + b1.velocityY ^ 2)
  let xSign := Real.sign b1.velocityX
  let b2 := { b1 with velocityX := xSign * currentSpeed * Real.cos angle,
                      velocityY := currentSpeed * Real.sin angle }
  let b3 := b2.increaseSpeed
  { b3 with x := b3.x + xSign * 2 }

/-- `reset(x, y)` (ball.js lines 175-180): reposition, restore
`initialSpeed`, draw a fresh random velocity. -/
def Ball.reset (b : Ball) (x y : ℝ) (u : ℝ) (q : Fin 4) : Ball :=
  Ball.setRandomVelocity
    { b with x := x, y := y, speed := b.initialSpeed } u q

/-- Match status (`main.js` line 85): `'PLAYING'` or `'GAME_OVER'`. -/
inductive GameState where
  | PLAYING : GameState
  | GAME_OVER : GameState
deriving DecidableEq

/-- The per-tick input snapshot the engine reads from the input handler:
`getInputDirection()`, `isKeyPressed('Space')`, `isTouchActive()`. -/
structure Input where
  direction : ℝ
  space : Bool
  touch : Bool

/-- Game state (`main.js` Game class): canvas size, match status, scores,
win threshold, both paddles and the ball.  Rendering, audio and the
animation-frame bookkeeping are side-effect-only and omitted. -/
structure Game where
  width : ℝ
  height : ℝ
  state : GameState
  playerScore : ℕ
  aiScore : ℕ
  targetScore : ℕ
  playerPaddle : Paddle
  aiPaddle : Paddle
  ball : Ball

/-- `constructor` + `init()` (main.js lines 78-146): status PLAYING,
scores 0, targetScore 10, paddles at offset 20 with size 8×80, ball at
the canvas centre.  No argument validation occurs in the source. -/
def Game.init (width height : ℝ) (u : ℝ) (q : Fin 4) : Game :=
  { width := width, height := height, state := .PLAYING,
    playerScore := 0, aiScore := 0, targetScore := 10,
    playerPaddle := Paddle.init 20 (height / 2 - 80 / 2) 8 80 height false,
    aiPaddle := Paddle.init (width - 20 - 8) (height / 2 - 80 / 2) 8 80 height true,
    ball := Ball.init (width / 2) (height / 2) width height u q }

/-- `checkWinCondition()` (main.js lines 255-260). -/
def Game.checkWinCondition (g : Game) : Game :=
  if g.playerScore ≥ g.targetScore ∨ g.aiScore ≥ g.targetScore then
    { g with state := .GAME_OVER }
  else g

/-- `checkScoring()` (main.js lines 231-250): `ballX`/`ballRadius` are
captured once before either branch; each branch increments its score,
resets the ball to the canvas centre and runs the win check.  Both
branches share the tick's random draw since at most one of them runs. -/
def Game.checkScoring (g : Game) (u : ℝ) (q : Fin 4) : Game :=
  let ballX := g.ball.x
  let ballRadius := g.ball.radius
  let g1 :=
    if ballX + ballRadius < 0 then
      Game.checkWinCondition
        { g with aiScore := g.aiScore + 1,
                 ball := g.ball.reset (g.width / 2) (g.height / 2) u q }
    else g
  if ballX - ballRadius > g1.width then
    Game.checkWinCondition
      { g1 with playerScore := g1.playerScore + 1,
                ball := g1.ball.reset (g1.width / 2) (g1.height / 2) u q }
  else g1

/-- `checkCollisions()` (main.js lines 207-226): wall check, then the
player paddle, then the AI paddle; each paddle overlap triggers
`applyPaddleHit`.  Audio events are side-effect-only and omitted. -/
def Game.checkCollisions (g : Game) : Game :=
  let b1 := g.ball.checkWallCollision.1
  let b2 :=
    match b1.checkPaddleCollision g.playerPaddle with
    | some hitPoint => b1.applyPaddleHit hitPoint
    | none => b1
  let b3 :=
    match b2.checkPaddleCollision g.aiPaddle with
    | some hitPoint => b2.applyPaddleHit hitPoint
    | none => b2
  { g with ball := b3 }

/-- `reset()` (main.js lines 350-367): back to PLAYING, scores zeroed,
paddles re-homed, ball re-centred with a fresh random velocity. -/
def Game.reset (g : Game) (u : ℝ) (q : Fin 4) : Game :=
  { g with state := .PLAYING, playerScore := 0, aiScore := 0,
           playerPaddle := g.playerPaddle.reset 20 (g.height / 2 - 80 / 2),
           aiPaddle := g.aiPaddle.reset (g.width - 20 - 8) (g.height / 2 - 80 / 2),
           ball := g.ball.reset (g.width / 2) (g.height / 2) u q }

/-- `update(deltaTime)` (main.js lines 178-202): while PLAYING advance
player paddle, AI paddle, ball, collisions, scoring (in that order); then
— on the possibly just-changed status — if GAME_OVER and restart input is
present, perform the full reset.  `u1 q1` are the random draws for a
scoring reset, `u2 q2` for a restart reset. -/
def Game.update (g : Game) (inp : Input) (deltaTime : ℝ)
    (u1 : ℝ) (q1 : Fin 4) (u2 : ℝ) (q2 : Fin 4) : Game :=
  let g1 :=
    if g.state = .PLAYING then
      let pp := g.playerPaddle.update deltaTime inp.direction
      let ap := g.aiPaddle.updateAI g.ball deltaTime
      let b := g.ball.update deltaTime
      Game.checkScoring
        (Game.checkCollisions { g with playerPaddle := pp, aiPaddle := ap, ball := b })
        u1 q1
    else g
  if g1.state = .GAME_OVER ∧ (inp.space ∨ inp.touch) then g1.reset u2 q2
  else g1

/-! ### Derived predicates and concrete instances used by the proofs -/

/-- The ball's velocity-magnitude invariant: the tracked scalar speed is
the Euclidean norm of the velocity and lies in `(0, maxSpeed]`.  The two
constant facts (`1 ≤ speedIncrement`, `0 < maxSpeed`) hold from
construction (1.05 and 600), are never mutated, and are what lets the
speed bounds survive `increaseSpeed`. -/
def Ball.speedInvariant (b : Ball) : Prop :=
  Real.sqrt (b.velocityX ^ 2 + b.velocityY ^ 2) = b.speed ∧
  0 < b.speed ∧ b.speed ≤ b.maxSpeed ∧
  1 ≤ b.speedIncrement ∧ 0 < b.maxSpeed

/-- The spec's wording of the overlap condition: the ball's bounding box
(side `2·radius`) meets the paddle's rectangle, as intersection of the
x- and y-intervals. -/
def boxesOverlap (b : Ball) (p : Paddle) : Prop :=
  b.x - b.radius ≤ p.x + p.width ∧ p.x ≤ b.x + b.radius ∧
  b.y - b.radius ≤ p.y + p.height ∧ p.y ≤ b.y + b.radius

/-- A run of scoring events: before each scoring pass the ball (having
travelled out of play) is at `balls n`; each step is the source's
`checkScoring`.  This abstracts the ball's multi-tick travel between
scores, which the claim does not constrain. -/
def scoreRun (g0 : Game) (balls : ℕ → Ball) (us : ℕ → ℝ) (qs : ℕ → Fin 4) : ℕ → Game
  | 0 => g0
  | n + 1 =>
      Game.checkScoring
        { scoreRun g0 balls us qs n with ball := balls n } (us n) (qs n)

/-- Concrete ball used by several witnesses: near the top wall, velocity
of magnitude 300 = speed. -/
def ballA : Ball :=
  { x := 400, y := 5, canvasWidth := 800, canvasHeight := 400,
    radius := 10, initialSpeed := 300, speed := 300, maxSpeed := 600,
    speedIncrement := 1.05, maxBounceAngle := Real.pi / 3,
    velocityX := 180, velocityY := -240 }

/-- Concrete human paddle for the C4 witness. -/
def paddleA : Paddle := Paddle.init 20 100 8 80 400 false

/-- Concrete paddle overlapping `ballA`. -/
def paddleC : Paddle := Paddle.init 395 0 8 80 400 false

/-- Scenario 1's game before the tick: ball at `(5, 200)` with
`vx = -50`, radius 10, scores 0-0, target 10, on an 800×400 canvas. -/
def scenario1Game : Game :=
  { width := 800, height := 400, state := .PLAYING,
    playerScore := 0, aiScore := 0, targetScore := 10,
    playerPaddle := Paddle.init 20 160 8 80 400 false,
    aiPaddle := Paddle.init 772 160 8 80 400 true,
    ball := { x := 5, y := 200, canvasWidth := 800, canvasHeight := 400,
              radius := 10, initialSpeed := 300, speed := 300, maxSpeed := 600,
              speedIncrement := 1.05, maxBounceAngle := Real.pi / 3,
              velocityX := -50, velocityY := 0 } }

/-- Scenario 1's game after the ball has moved for `dt = 0.5`
(large enough that `x + radius < 0`). -/
def scenario1Moved : Game :=
  { scenario1Game with ball := scenario1Game.ball.update 0.5 }

/-- A finished game used by the C7 witness. -/
def gameOverGame : Game :=
  { width := 800, height := 400, state := .GAME_OVER,
    playerScore := 10, aiScore := 3, targetScore := 10,
    playerPaddle := paddleA, aiPaddle := paddleC, ball := ballA }

/-! ### Helper lemmas -/

/-- The clamp `max 0 (min a y)` lands in `[0, a]` whenever `0 ≤ a`. -/
lemma clamp_mem (a y : ℝ) (h : 0 ≤ a) :
    0 ≤ max 0 (min a y) ∧ max 0 (min a y) ≤ a :=
  ⟨le_max_left _ _, max_le h (min_le_left _ _)⟩

/-- `checkWallCollision`, top-wall-only case. -/
lemma checkWallCollision_top (b : Ball) (h1 : b.y - b.radius ≤ 0)
    (h2 : ¬ b.radius + b.radius ≥ b.canvasHeight) :
    b.checkWallCollision = ({ b with y := b.radius, velocityY := |b.velocityY| }, true) := by
  unfold Ball.checkWallCollision
  rw [if_pos h1]
  dsimp only
  rw [if_neg h2]

/-- `checkWallCollision`, bottom-wall-only case. -/
lemma checkWallCollision_bottom (b : Ball) (h1 : ¬ b.y - b.radius ≤ 0)
    (h2 : b.y + b.radius ≥ b.canvasHeight) :
    b.checkWallCollision =
      ({ b with y := b.canvasHeight - b.radius, velocityY := -|b.velocityY| }, true) := by
  unfold Ball.checkWallCollision
  rw [if_neg h1]
  dsimp only
  rw [if_pos h2]

/-- `checkWallCollision`, both-edges case (possible only when the ball
spans the whole canvas). -/
lemma checkWallCollision_both (b : Ball) (h1 : b.y - b.radius ≤ 0)
    (h2 : b.radius + b.radius ≥ b.canvasHeight) :
    b.checkWallCollision =
      ({ b with y := b.canvasHeight - b.radius, velocityY := -|b.velocityY| }, true) := by
  unfold Ball.checkWallCollision
  rw [if_pos h1]
  dsimp only
  rw [if_pos h2, abs_abs]

/-- `checkWallCollision`, no-hit case. -/
lemma checkWallCollision_none (b : Ball) (h1 : ¬ b.y - b.radius ≤ 0)
    (h2 : ¬ b.y + b.radius ≥ b.canvasHeight) :
    b.checkWallCollision = (b, false) := by
  unfold Ball.checkWallCollision
  rw [if_neg h1]
  dsimp only
  rw [if_neg h2]

/-! ### Claim C2 -/

/-- C2: for every ball position and velocity (on a canvas taller than the
ball), after `checkWallCollision` the ball's `y` satisfies
`radius ≤ y ≤ canvasHeight - radius`; after a top-wall hit `vy` is
non-negative, after a bottom-wall hit non-positive; and the returned flag
fires exactly when either edge was crossed. -/
theorem checkWallCollision_keeps_ball_inside (b : Ball)
    (h : 2 * b.radius < b.canvasHeight) :
    b.radius ≤ b.checkWallCollision.1.y ∧
    b.checkWallCollision.1.y ≤ b.canvasHeight - b.radius ∧
    (b.y - b.radius ≤ 0 → 0 ≤ b.checkWallCollision.1.velocityY) ∧
    (b.canvasHeight ≤ b.y + b.radius → b.checkWallCollision.1.velocityY ≤ 0) ∧
    (b.checkWallCollision.2 = true ↔
      (b.y - b.radius ≤ 0 ∨ b.canvasHeight ≤ b.y + b.radius)) := by
  by_cases h1 : b.y - b.radius ≤ 0
  · have h2 : ¬ b.radius + b.radius ≥ b.canvasHeight := by
      simp only [ge_iff_le, not_le]; linarith
    rw [checkWallCollision_top b h1 h2]
    dsimp only
    refine ⟨le_refl _, by linarith, fun _ => abs_nonneg _, fun hb => absurd hb ?_, ?_⟩
    · simp only [not_le]; linarith
    · simp only [true_iff]
      exact Or.inl h1
  · by_cases h2 : b.y + b.radius ≥ b.canvasHeight
    · rw [checkWallCollision_bottom b h1 h2]
      dsimp only
      refine ⟨by linarith, by linarith, fun ht => absurd ht h1, fun _ => ?_, ?_⟩
      · exact neg_nonpos.mpr (abs_nonneg _)
      · simp only [true_iff]
        exact Or.inr h2
    · rw [checkWallCollision_none b h1 h2]
      dsimp only
      push_neg at h1 h2
      refine ⟨by linarith, by linarith, fun ht => absurd ht (by linarith), fun hb =>
        absurd hb (by simp only [not_le]; linarith), ?_⟩
      constructor
      · intro hfalse
        exact absurd hfalse (by simp)
      · rintro (ht | hb)
        · exact absurd ht (by linarith)
        · exact absurd hb (by simp only [not_le]; linarith)

/-- Witness for C2 at a concrete ball touching the top wall. -/
theorem checkWallCollision_keeps_ball_inside_witness :
    2 * ballA.radius < ballA.canvasHeight ∧
    ballA.radius ≤ ballA.checkWallCollision.1.y := by
  refine ⟨by norm_num [ballA], ?_⟩
  exact (checkWallCollision_keeps_ball_inside ballA (by norm_num [ballA])).1

/-! ### Claim C3 -/

/-- C3: `checkPaddleCollision` answers `some v` exactly when the ball's
bounding box overlaps the paddle's rectangle, and every returned `v` lies
in `[-1, 1]`.  (It is a pure query by construction: a function of the
ball and the paddle that mutates nothing.) -/
theorem checkPaddleCollision_range (b : Ball) (p : Paddle) :
    ((b.checkPaddleCollision p).isSome ↔ boxesOverlap b p) ∧
    ∀ v : ℝ, b.checkPaddleCollision p = some v → -1 ≤ v ∧ v ≤ 1 := by
  unfold Ball.checkPaddleCollision Ball.getBounds Paddle.getBounds
  dsimp only
  split_ifs with hc
  · refine ⟨by simp only [Option.isSome_some, true_iff]; exact
      ⟨hc.1.2, hc.1.1, hc.2.2, hc.2.1⟩, ?_⟩
    intro v hv
    have hv' : max (-1) (min 1 ((b.y - (p.y + p.height / 2)) / (p.height / 2))) = v :=
      Option.some_injective ℝ hv
    constructor
    · rw [← hv']
      exact le_max_left _ _
    · rw [← hv']
      exact max_le (by norm_num) (min_le_left _ _)
  · refine ⟨?_, by simp⟩
    simp only [Option.isSome_none, Bool.false_eq_true, false_iff]
    intro hov
    exact hc ⟨⟨hov.2.1, hov.1⟩, hov.2.2.2, hov.2.2.1⟩

/-- Witness for C3: a concrete overlapping pair yields a hit point, and
it lies in `[-1, 1]`. -/
theorem checkPaddleCollision_range_witness :
    (ballA.checkPaddleCollision paddleC).isSome = true := by
  exact (checkPaddleCollision_range ballA paddleC).1.mpr
    (by norm_num [boxesOverlap, ballA, paddleC, Paddle.init])

/-! ### Claim C4 -/

/-- C4: for every paddle whose height fits the canvas, every input
direction, ball state and `deltaTime` (degenerate values included), the
paddle's `y` lies in `[0, canvasHeight - height]` after `update` (human
role) and after `updateAI` (AI role). -/
theorem paddle_stays_on_screen (p : Paddle) (h : p.height ≤ p.canvasHeight)
    (deltaTime direction : ℝ) (ball : Ball) :
    (p.isAI = false →
      0 ≤ (p.update deltaTime direction).y ∧
      (p.update deltaTime direction).y ≤ p.canvasHeight - p.height) ∧
    (p.isAI = true →
      0 ≤ (p.updateAI ball deltaTime).y ∧
      (p.updateAI ball deltaTime).y ≤ p.canvasHeight - p.height) := by
  have ha : (0 : ℝ) ≤ p.canvasHeight - p.height := by linarith
  constructor
  · intro hAI
    unfold Paddle.update
    rw [hAI]
    simp only [Bool.false_eq_true, if_false]
    exact clamp_mem _ _ ha
  · intro hAI
    unfold Paddle.updateAI
    rw [hAI]
    simp only [Bool.not_true, Bool.false_eq_true, if_false]
    split_ifs <;> exact clamp_mem _ _ ha

/-- Witness for C4: the concrete paddle stays inside after a degenerate
update (`direction = 0`, `dt = 0`). -/
theorem paddle_stays_on_screen_witness :
    paddleA.height ≤ paddleA.canvasHeight ∧
    (0 ≤ (paddleA.update 0 0).y ∧
      (paddleA.update 0 0).y ≤ paddleA.canvasHeight - paddleA.height) := by
  refine ⟨by norm_num [paddleA, Paddle.init], ?_⟩
  exact (paddle_stays_on_screen paddleA (by norm_num [paddleA, Paddle.init]) 0 0 ballA).1
    (by norm_num [paddleA, Paddle.init])

/-! ### Trigonometric helper lemmas for `atan2` and velocity recomposition -/

/-- Modulus of the complex number packing a velocity vector. -/
lemma complex_abs_mk (x y : ℝ) :
    Complex.abs ⟨x, y⟩ = Real.sqrt (x ^ 2 + y ^ 2) := by
  rw [Complex.abs_apply, Complex.normSq_mk]
  congr 1
  ring

lemma complex_mk_ne_zero (x y : ℝ) (h : ¬(x = 0 ∧ y = 0)) : (⟨x, y⟩ : ℂ) ≠ 0 := by
  intro hz
  rw [Complex.ext_iff] at hz
  exact h ⟨by simpa using hz.1, by simpa using hz.2⟩

/-- `cos (atan2 y x)` is the normalized x-component. -/
lemma cos_atan2 (y x : ℝ) (h : ¬(x = 0 ∧ y = 0)) :
    Real.cos (atan2 y x) = x / Real.sqrt (x ^ 2 + y ^ 2) := by
  unfold atan2
  rw [Complex.cos_arg (complex_mk_ne_zero x y h), complex_abs_mk]

/-- `sin (atan2 y x)` is the normalized y-component. -/
lemma sin_atan2 (y x : ℝ) :
    Real.sin (atan2 y x) = y / Real.sqrt (x ^ 2 + y ^ 2) := by
  unfold atan2
  rw [Complex.sin_arg, complex_abs_mk]

/-- Magnitude of a velocity recomposed as `(cos θ · s, sin θ · s)`. -/
lemma sqrt_recomposed (θ s : ℝ) (hs : 0 ≤ s) :
    Real.sqrt ((Real.cos θ * s) ^ 2 + (Real.sin θ * s) ^ 2) = s := by
  have h1 : (Real.cos θ * s) ^ 2 + (Real.sin θ * s) ^ 2 =
      (Real.sin θ ^ 2 + Real.cos θ ^ 2) * s ^ 2 := by ring
  rw [h1, Real.sin_sq_add_cos_sq, one_mul, Real.sqrt_sq hs]

/-- A nonzero vector has positive Euclidean norm. -/
lemma sqrt_sq_add_sq_pos (x y : ℝ) (h : ¬(x = 0 ∧ y = 0)) :
    0 < Real.sqrt (x ^ 2 + y ^ 2) := by
  rw [Real.sqrt_pos]
  rcases not_and_or.mp h with hx | hy
  · have := sq_pos_of_ne_zero hx
    nlinarith [sq_nonneg y]
  · have := sq_pos_of_ne_zero hy
    nlinarith [sq_nonneg x]

/-! ### Claim C1 -/

/-- C1: `increaseSpeed` (invoked once per `applyPaddleHit`) sets the
speed to exactly `min(speed·speedIncrement, maxSpeed)`, which is
monotonically non-decreasing from any in-range speed and never exceeds
`maxSpeed`; the velocity is recomputed from `atan2(vy, vx)` at the new
speed, so it is a positive scalar multiple of the old velocity — the
direction is unchanged, only the magnitude. -/
theorem increaseSpeed_caps_and_keeps_direction (b : Ball)
    (hs : 0 < b.speed) (hmax : b.speed ≤ b.maxSpeed) (hinc : 1 ≤ b.speedIncrement)
    (hv : ¬(b.velocityX = 0 ∧ b.velocityY = 0)) :
    b.increaseSpeed.speed = min (b.speed * b.speedIncrement) b.maxSpeed ∧
    b.speed ≤ b.increaseSpeed.speed ∧
    b.increaseSpeed.speed ≤ b.maxSpeed ∧
    ∃ c : ℝ, 0 < c ∧
      b.increaseSpeed.velocityX = c * b.velocityX ∧
      b.increaseSpeed.velocityY = c * b.velocityY := by
  have hnorm : 0 < Real.sqrt (b.velocityX ^ 2 + b.velocityY ^ 2) :=
    sqrt_sq_add_sq_pos _ _ hv
  have hs'pos : 0 < min (b.speed * b.speedIncrement) b.maxSpeed :=
    lt_min (by nlinarith) (lt_of_lt_of_le hs hmax)
  refine ⟨rfl, le_min (by nlinarith) hmax, min_le_right _ _,
    min (b.speed * b.speedIncrement) b.maxSpeed /
      Real.sqrt (b.velocityX ^ 2 + b.velocityY ^ 2),
    div_pos hs'pos hnorm, ?_, ?_⟩
  · show Real.cos (atan2 b.velocityY b.velocityX) *
      min (b.speed * b.speedIncrement) b.maxSpeed = _
    rw [cos_atan2 _ _ hv]
    ring
  · show Real.sin (atan2 b.velocityY b.velocityX) *
      min (b.speed * b.speedIncrement) b.maxSpeed = _
    rw [sin_atan2]
    ring

/-- Witness for C1 at the concrete ball `ballA` (speed 300, velocity
(180, -240)). -/
theorem increaseSpeed_caps_and_keeps_direction_witness :
    (0 < ballA.speed ∧ ballA.speed ≤ ballA.maxSpeed ∧
      1 ≤ ballA.speedIncrement ∧ ¬(ballA.velocityX = 0 ∧ ballA.velocityY = 0)) ∧
    ballA.increaseSpeed.speed = min (ballA.speed * ballA.speedIncrement) ballA.maxSpeed := by
  refine ⟨⟨by norm_num [ballA], by norm_num [ballA], by norm_num [ballA],
    by norm_num [ballA]⟩, ?_⟩
  exact (increaseSpeed_caps_and_keeps_direction ballA (by norm_num [ballA])
    (by norm_num [ballA]) (by norm_num [ballA]) (by norm_num [ballA])).1

/-! ### `applyPaddleHit` characterization -/

/-- `atan2` applied to a velocity recomposed from an angle `A`, a
magnitude `s` and a unit sign `sg` recovers `sg·cos A` and `sin A`. -/
lemma atan2_recomposed (A s sg : ℝ) (hs : 0 < s) (hsg : sg = 1 ∨ sg = -1)
    (hcos : 0 < Real.cos A) :
    Real.cos (atan2 (s * Real.sin A) (sg * s * Real.cos A)) = sg * Real.cos A ∧
    Real.sin (atan2 (s * Real.sin A) (sg * s * Real.cos A)) = Real.sin A := by
  have hsg2 : sg ^ 2 = 1 := by rcases hsg with h | h <;> rw [h] <;> norm_num
  have hsgne : sg ≠ 0 := by rcases hsg with h | h <;> rw [h] <;> norm_num
  have hXne : sg * s * Real.cos A ≠ 0 :=
    mul_ne_zero (mul_ne_zero hsgne (ne_of_gt hs)) (ne_of_gt hcos)
  have hnz : ¬(sg * s * Real.cos A = 0 ∧ s * Real.sin A = 0) := fun h => hXne h.1
  have hsum : (sg * s * Real.cos A) ^ 2 + (s * Real.sin A) ^ 2 = s ^ 2 := by
    have h1 : (sg * s * Real.cos A) ^ 2 + (s * Real.sin A) ^ 2 =
        sg ^ 2 * (Real.cos A) ^ 2 * s ^ 2 + (Real.sin A) ^ 2 * s ^ 2 := by ring
    have h2 : (Real.cos A) ^ 2 * s ^ 2 + (Real.sin A) ^ 2 * s ^ 2 =
        ((Real.sin A) ^ 2 + (Real.cos A) ^ 2) * s ^ 2 := by ring
    rw [h1, hsg2, one_mul, h2, Real.sin_sq_add_cos_sq, one_mul]
  have hsqrt : Real.sqrt ((sg * s * Real.cos A) ^ 2 + (s * Real.sin A) ^ 2) = s := by
    rw [hsum, Real.sqrt_sq hs.le]
  constructor
  · rw [cos_atan2 _ _ hnz, hsqrt]
    field_simp
    ring
  · rw [sin_atan2, hsqrt]
    field_simp

/-- `applyPaddleHit`: for a ball with nonzero `vx` and a hit angle in the
open vertical cone, the final velocity components and speed, read off the
source's two-stage recompute (hit-angle recompute at the old magnitude,
then `increaseSpeed` at the capped new speed). -/
lemma applyPaddleHit_fields (b : Ball) (hitPoint : ℝ)
    (hvx : b.velocityX ≠ 0)
    (hcos : 0 < Real.cos (hitPoint * b.maxBounceAngle)) :
    (b.applyPaddleHit hitPoint).velocityX =
      Real.sign (b.velocityX * (-1)) * Real.cos (hitPoint * b.maxBounceAngle) *
        min (b.speed * b.speedIncrement) b.maxSpeed ∧
    (b.applyPaddleHit hitPoint).velocityY =
      Real.sin (hitPoint * b.maxBounceAngle) *
        min (b.speed * b.speedIncrement) b.maxSpeed ∧
    (b.applyPaddleHit hitPoint).speed = min (b.speed * b.speedIncrement) b.maxSpeed := by
  have hflip : (b.velocityX * (-1)) ^ 2 + b.velocityY ^ 2 =
      b.velocityX ^ 2 + b.velocityY ^ 2 := by ring
  have hs0 : 0 < Real.sqrt ((b.velocityX * (-1)) ^ 2 + b.velocityY ^ 2) := by
    rw [hflip]
    exact sqrt_sq_add_sq_pos _ _ (fun h => hvx h.1)
  have hsg : Real.sign (b.velocityX * (-1)) = 1 ∨ Real.sign (b.velocityX * (-1)) = -1 := by
    rcases lt_or_gt_of_ne hvx with h | h
    · left
      exact Real.sign_of_pos (by nlinarith)
    · right
      exact Real.sign_of_neg (by nlinarith)
  obtain ⟨hc, hsn⟩ := atan2_recomposed (hitPoint * b.maxBounceAngle)
    (Real.sqrt ((b.velocityX * (-1)) ^ 2 + b.velocityY ^ 2))
    (Real.sign (b.velocityX * (-1))) hs0 hsg hcos
  refine ⟨?_, ?_, rfl⟩
  · show Real.cos (atan2
        (Real.sqrt ((b.velocityX * (-1)) ^ 2 + b.velocityY ^ 2) *
          Real.sin (hitPoint * b.maxBounceAngle))
        (Real.sign (b.velocityX * (-1)) *
          Real.sqrt ((b.velocityX * (-1)) ^ 2 + b.velocityY ^ 2) *
          Real.cos (hitPoint * b.maxBounceAngle))) *
      min (b.speed * b.speedIncrement) b.maxSpeed = _
    rw [hc]
  · show Real.sin (atan2
        (Real.sqrt ((b.velocityX * (-1)) ^ 2 + b.velocityY ^ 2) *
          Real.sin (hitPoint * b.maxBounceAngle))
        (Real.sign (b.velocityX * (-1)) *
          Real.sqrt ((b.velocityX * (-1)) ^ 2 + b.velocityY ^ 2) *
          Real.cos (hitPoint * b.maxBounceAngle))) *
      min (b.speed * b.speedIncrement) b.maxSpeed = _
    rw [hsn]

/-! ### Claim C8 -/

/-- C8: a paddle hit at the exact paddle centre (`hitPoint = 0`) gives a
straight horizontal rebound — `vy = 0` — and flips the sign of `vx`,
including after `increaseSpeed`'s `atan2`-based re-derivation. -/
theorem center_hit_rebounds_horizontally (b : Ball) (hvx : b.velocityX ≠ 0)
    (hs : 0 < b.speed) (hinc : 0 < b.speedIncrement) (hmax : 0 < b.maxSpeed) :
    (b.applyPaddleHit 0).velocityY = 0 ∧
    (0 < b.velocityX → (b.applyPaddleHit 0).velocityX < 0) ∧
    (b.velocityX < 0 → 0 < (b.applyPaddleHit 0).velocityX) := by
  have hA : (0 : ℝ) * b.maxBounceAngle = 0 := by ring
  have hcos : 0 < Real.cos ((0 : ℝ) * b.maxBounceAngle) := by
    rw [hA, Real.cos_zero]
    norm_num
  obtain ⟨hx, hy, _⟩ := applyPaddleHit_fields b 0 hvx hcos
  have hs' : 0 < min (b.speed * b.speedIncrement) b.maxSpeed :=
    lt_min (by positivity) hmax
  refine ⟨?_, ?_, ?_⟩
  · rw [hy, hA, Real.sin_zero, zero_mul]
  · intro hpos
    rw [hx, hA, Real.cos_zero]
    rw [Real.sign_of_neg (by nlinarith : b.velocityX * (-1) < 0)]
    nlinarith
  · intro hneg
    rw [hx, hA, Real.cos_zero]
    rw [Real.sign_of_pos (by nlinarith : 0 < b.velocityX * (-1))]
    nlinarith

/-- Witness for C8 at the concrete ball `ballA` (moving right), showing
the rebound is horizontal and leftward. -/
theorem center_hit_rebounds_horizontally_witness :
    (ballA.applyPaddleHit 0).velocityY = 0 ∧ (ballA.applyPaddleHit 0).velocityX < 0 := by
  obtain ⟨h1, h2, _⟩ := center_hit_rebounds_horizontally ballA
    (by norm_num [ballA]) (by norm_num [ballA]) (by norm_num [ballA]) (by norm_num [ballA])
  exact ⟨h1, h2 (by norm_num [ballA])⟩

/-! ### Claim C10 -/

/-- C10 (implicit): with `maxBounceAngle = π/3`, any hit point in
`[-1, 1]` leaves the rebound's horizontal component at least
`speed · cos(maxBounceAngle) = speed/2` in magnitude (so never more than
60° steep, never vertical), with `vx`'s sign reversed. -/
theorem paddle_hit_bounded_steepness (b : Ball) (hitPoint : ℝ)
    (hvx : b.velocityX ≠ 0) (hs : 0 < b.speed)
    (hinc : 0 < b.speedIncrement) (hmax : 0 < b.maxSpeed)
    (hmba : b.maxBounceAngle = Real.pi / 3)
    (hh : -1 ≤ hitPoint ∧ hitPoint ≤ 1) :
    (b.applyPaddleHit hitPoint).speed * Real.cos b.maxBounceAngle ≤
      |(b.applyPaddleHit hitPoint).velocityX| ∧
    Real.cos b.maxBounceAngle = 1 / 2 ∧
    (0 < b.velocityX → (b.applyPaddleHit hitPoint).velocityX < 0) ∧
    (b.velocityX < 0 → 0 < (b.applyPaddleHit hitPoint).velocityX) := by
  have hpi : 0 < Real.pi := Real.pi_pos
  have habs : |hitPoint * b.maxBounceAngle| ≤ Real.pi / 3 := by
    rw [hmba, abs_mul, abs_of_pos (by positivity : (0:ℝ) < Real.pi / 3)]
    have : |hitPoint| ≤ 1 := abs_le.mpr hh
    nlinarith
  obtain ⟨habs1, habs2⟩ := abs_le.mp habs
  have hcos : 0 < Real.cos (hitPoint * b.maxBounceAngle) := by
    apply Real.cos_pos_of_mem_Ioo
    constructor <;> [linarith; linarith]
  have hcos_half : 1 / 2 ≤ Real.cos (hitPoint * b.maxBounceAngle) := by
    have h1 : Real.cos (Real.pi / 3) ≤ Real.cos |hitPoint * b.maxBounceAngle| :=
      Real.cos_le_cos_of_nonneg_of_le_pi (abs_nonneg _) (by linarith) habs
    rw [Real.cos_abs, Real.cos_pi_div_three] at h1
    exact h1
  obtain ⟨hx, _, hsp⟩ := applyPaddleHit_fields b hitPoint hvx hcos
  have hs' : 0 < min (b.speed * b.speedIncrement) b.maxSpeed :=
    lt_min (by positivity) hmax
  have hchalf : Real.cos b.maxBounceAngle = 1 / 2 := by
    rw [hmba, Real.cos_pi_div_three]
  refine ⟨?_, hchalf, ?_, ?_⟩
  · rw [hx, hsp, hchalf]
    rcases lt_or_gt_of_ne hvx with h | h
    · rw [Real.sign_of_pos (by nlinarith : 0 < b.velocityX * (-1)), one_mul,
        abs_of_pos (by positivity)]
      nlinarith
    · rw [Real.sign_of_neg (by nlinarith : b.velocityX * (-1) < 0)]
      have : (-1 : ℝ) * Real.cos (hitPoint * b.maxBounceAngle) *
          min (b.speed * b.speedIncrement) b.maxSpeed < 0 := by nlinarith
      rw [abs_of_neg this]
      nlinarith
  · intro hpos
    rw [hx, Real.sign_of_neg (by nlinarith : b.velocityX * (-1) < 0)]
    nlinarith
  · intro hneg
    rw [hx, Real.sign_of_pos (by nlinarith : 0 < b.velocityX * (-1))]
    nlinarith

/-- Witness for C10 at `ballA` with hit point `1/2`. -/
theorem paddle_hit_bounded_steepness_witness :
    (ballA.applyPaddleHit (1/2)).speed * Real.cos ballA.maxBounceAngle ≤
      |(ballA.applyPaddleHit (1/2)).velocityX| := by
  exact (paddle_hit_bounded_steepness ballA (1/2) (by norm_num [ballA])
    (by norm_num [ballA]) (by norm_num [ballA]) (by norm_num [ballA])
    (by norm_num [ballA]) (by norm_num)).1

/-! ### Claim C5 -/

/-- `setRandomVelocity` recomposes the velocity from some angle at the
current speed and changes nothing else. -/
lemma setRandomVelocity_eq (b : Ball) (u : ℝ) (q : Fin 4) :
    ∃ θ : ℝ, b.setRandomVelocity u q =
      { b with velocityX := Real.cos θ * b.speed,
               velocityY := Real.sin θ * b.speed } :=
  ⟨_, rfl⟩

/-- `increaseSpeed` written out: capped speed, velocity recomposed from
`atan2` at the capped speed. -/
lemma increaseSpeed_eq (b : Ball) :
    b.increaseSpeed =
      { b with speed := min (b.speed * b.speedIncrement) b.maxSpeed,
               velocityX := Real.cos (atan2 b.velocityY b.velocityX) *
                 min (b.speed * b.speedIncrement) b.maxSpeed,
               velocityY := Real.sin (atan2 b.velocityY b.velocityX) *
                 min (b.speed * b.speedIncrement) b.maxSpeed } := rfl

/-- `setRandomVelocity` restores the invariant from the scalar bounds
alone. -/
lemma setRandomVelocity_invariant (b : Ball) (u : ℝ) (q : Fin 4)
    (hs : 0 < b.speed) (hmax : b.speed ≤ b.maxSpeed)
    (hinc : 1 ≤ b.speedIncrement) (hmaxpos : 0 < b.maxSpeed) :
    (b.setRandomVelocity u q).speedInvariant := by
  obtain ⟨θ, hθ⟩ := setRandomVelocity_eq b u q
  rw [hθ]
  exact ⟨sqrt_recomposed θ b.speed hs.le, hs, hmax, hinc, hmaxpos⟩

/-- `increaseSpeed` re-establishes the invariant from the scalar bounds
alone (it recomposes the velocity at the new speed unconditionally). -/
lemma increaseSpeed_invariant (b : Ball)
    (hs : 0 < b.speed) (_hmax : b.speed ≤ b.maxSpeed)
    (hinc : 1 ≤ b.speedIncrement) (hmaxpos : 0 < b.maxSpeed) :
    b.increaseSpeed.speedInvariant := by
  rw [increaseSpeed_eq]
  have hs' : 0 < min (b.speed * b.speedIncrement) b.maxSpeed :=
    lt_min (by nlinarith) hmaxpos
  exact ⟨sqrt_recomposed _ _ hs'.le, hs', min_le_right _ _, hinc, hmaxpos⟩

/-- C5: the invariant `sqrt(vx²+vy²) = speed ∧ 0 < speed ≤ maxSpeed`
holds at construction and is preserved by every velocity mutation:
`setRandomVelocity`, `checkWallCollision`'s sign flips, `applyPaddleHit`,
and `increaseSpeed`. -/
theorem velocity_magnitude_invariant :
    (∀ x y w h u q, (Ball.init x y w h u q).speedInvariant) ∧
    (∀ (b : Ball) u q, b.speedInvariant → (b.setRandomVelocity u q).speedInvariant) ∧
    (∀ b : Ball, b.speedInvariant → b.checkWallCollision.1.speedInvariant) ∧
    (∀ (b : Ball) hitPoint, b.speedInvariant →
      (b.applyPaddleHit hitPoint).speedInvariant) ∧
    (∀ b : Ball, b.speedInvariant → b.increaseSpeed.speedInvariant) := by
  refine ⟨?_, ?_, ?_, ?_, ?_⟩
  · intro x y w h u q
    exact setRandomVelocity_invariant _ u q (by norm_num) (by norm_num)
      (by norm_num) (by norm_num)
  · intro b u q hinv
    exact setRandomVelocity_invariant b u q hinv.2.1 hinv.2.2.1
      hinv.2.2.2.1 hinv.2.2.2.2
  · intro b hinv
    obtain ⟨hm, hrest⟩ := hinv
    by_cases h1 : b.y - b.radius ≤ 0
    · by_cases h2 : b.radius + b.radius ≥ b.canvasHeight
      · rw [checkWallCollision_both b h1 h2]
        refine ⟨?_, hrest⟩
        show Real.sqrt (b.velocityX ^ 2 + (-|b.velocityY|) ^ 2) = b.speed
        rw [show (-|b.velocityY|) ^ 2 = b.velocityY ^ 2 by rw [neg_sq, sq_abs]]
        exact hm
      · rw [checkWallCollision_top b h1 h2]
        refine ⟨?_, hrest⟩
        show Real.sqrt (b.velocityX ^ 2 + |b.velocityY| ^ 2) = b.speed
        rw [sq_abs]
        exact hm
    · by_cases h2 : b.y + b.radius ≥ b.canvasHeight
      · rw [checkWallCollision_bottom b h1 h2]
        refine ⟨?_, hrest⟩
        show Real.sqrt (b.velocityX ^ 2 + (-|b.velocityY|) ^ 2) = b.speed
        rw [show (-|b.velocityY|) ^ 2 = b.velocityY ^ 2 by rw [neg_sq, sq_abs]]
        exact hm
      · rw [checkWallCollision_none b h1 h2]
        exact ⟨hm, hrest⟩
  · intro b hitPoint hinv
    exact increaseSpeed_invariant _ hinv.2.1 hinv.2.2.1 hinv.2.2.2.1 hinv.2.2.2.2
  · intro b hinv
    exact increaseSpeed_invariant b hinv.2.1 hinv.2.2.1 hinv.2.2.2.1 hinv.2.2.2.2

/-- Witness for C5: `ballA` satisfies the invariant and keeps it through
`increaseSpeed`. -/
theorem velocity_magnitude_invariant_witness :
    ballA.speedInvariant ∧ ballA.increaseSpeed.speedInvariant := by
  have hinv : ballA.speedInvariant := by
    refine ⟨?_, by norm_num [ballA], by norm_num [ballA], by norm_num [ballA],
      by norm_num [ballA]⟩
    show Real.sqrt ((180 : ℝ) ^ 2 + (-240) ^ 2) = 300
    rw [show ((180 : ℝ) ^ 2 + (-240) ^ 2) = 300 ^ 2 by norm_num,
      Real.sqrt_sq (by norm_num)]
  exact ⟨hinv, velocity_magnitude_invariant.2.2.2.2 ballA hinv⟩

/-! ### Game-layer helper lemmas -/

/-- `Ball.reset` repositions the ball, restores `initialSpeed`, and keeps
the configuration fields. -/
lemma ball_reset_fields (b : Ball) (x y u : ℝ) (q : Fin 4) :
    (b.reset x y u q).x = x ∧ (b.reset x y u q).y = y ∧
    (b.reset x y u q).speed = b.initialSpeed ∧
    (b.reset x y u q).radius = b.radius ∧
    (b.reset x y u q).initialSpeed = b.initialSpeed :=
  ⟨rfl, rfl, rfl, rfl, rfl⟩

/-- `checkWinCondition` only ever touches `state`. -/
lemma checkWinCondition_fields (g : Game) :
    g.checkWinCondition.playerScore = g.playerScore ∧
    g.checkWinCondition.aiScore = g.aiScore ∧
    g.checkWinCondition.targetScore = g.targetScore ∧
    g.checkWinCondition.width = g.width ∧
    g.checkWinCondition.height = g.height ∧
    g.checkWinCondition.ball = g.ball := by
  unfold Game.checkWinCondition
  split_ifs <;> exact ⟨rfl, rfl, rfl, rfl, rfl, rfl⟩

/-- The status after `checkWinCondition`, as a conditional. -/
lemma checkWinCondition_state (g : Game) :
    g.checkWinCondition.state =
      if g.playerScore ≥ g.targetScore ∨ g.aiScore ≥ g.targetScore
        then GameState.GAME_OVER else g.state := by
  unfold Game.checkWinCondition
  split_ifs <;> rfl

/-- `checkScoring` when the ball has exited on the left: the AI branch
fires and the player branch cannot (both test the pre-branch `ballX`). -/
lemma checkScoring_aiScores (g : Game) (u : ℝ) (q : Fin 4)
    (h : g.ball.x + g.ball.radius < 0)
    (hr : 0 ≤ g.ball.radius) (hw : 0 ≤ g.width) :
    g.checkScoring u q =
      Game.checkWinCondition
        { g with aiScore := g.aiScore + 1,
                 ball := g.ball.reset (g.width / 2) (g.height / 2) u q } := by
  unfold Game.checkScoring
  dsimp only
  rw [if_pos h, (checkWinCondition_fields _).2.2.2.1]
  rw [if_neg (show ¬ g.width < g.ball.x - g.ball.radius by push_neg; linarith)]

/-- `checkScoring` when the ball has exited on the right: the player
branch fires and the AI branch cannot. -/
lemma checkScoring_playerScores (g : Game) (u : ℝ) (q : Fin 4)
    (h : g.width < g.ball.x - g.ball.radius)
    (hr : 0 ≤ g.ball.radius) (hw : 0 ≤ g.width) :
    g.checkScoring u q =
      Game.checkWinCondition
        { g with playerScore := g.playerScore + 1,
                 ball := g.ball.reset (g.width / 2) (g.height / 2) u q } := by
  unfold Game.checkScoring
  dsimp only
  rw [if_neg (show ¬ g.ball.x + g.ball.radius < 0 by push_neg; linarith)]
  rw [if_pos h]

/-- `checkScoring` when the ball is still in play: no change. -/
lemma checkScoring_none (g : Game) (u : ℝ) (q : Fin 4)
    (h1 : ¬ g.ball.x + g.ball.radius < 0)
    (h2 : ¬ g.width < g.ball.x - g.ball.radius) :
    g.checkScoring u q = g := by
  unfold Game.checkScoring
  dsimp only
  rw [if_neg h1, if_neg h2]

/-! ### Claim C6 -/

/-- C6: in every scoring pass, the AI scores exactly when the ball's
right edge is left of `x = 0` and the human exactly when its left edge is
right of `x = width`; the two conditions are mutually exclusive; on a
score the scorer's counter increments by one, the ball is recentred with
`initialSpeed`, and the win check runs on the new score; otherwise the
game is untouched. -/
theorem scoring_pass_correct (g : Game) (u : ℝ) (q : Fin 4)
    (hr : 0 ≤ g.ball.radius) (hw : 0 ≤ g.width) :
    ¬(g.ball.x + g.ball.radius < 0 ∧ g.width < g.ball.x - g.ball.radius) ∧
    (g.ball.x + g.ball.radius < 0 →
      (g.checkScoring u q).aiScore = g.aiScore + 1 ∧
      (g.checkScoring u q).playerScore = g.playerScore ∧
      (g.checkScoring u q).ball.x = g.width / 2 ∧
      (g.checkScoring u q).ball.y = g.height / 2 ∧
      (g.checkScoring u q).ball.speed = g.ball.initialSpeed ∧
      (g.checkScoring u q).state =
        (if g.playerScore ≥ g.targetScore ∨ g.aiScore + 1 ≥ g.targetScore
          then GameState.GAME_OVER else g.state)) ∧
    (g.width < g.ball.x - g.ball.radius →
      (g.checkScoring u q).playerScore = g.playerScore + 1 ∧
      (g.checkScoring u q).aiScore = g.aiScore ∧
      (g.checkScoring u q).ball.x = g.width / 2 ∧
      (g.checkScoring u q).ball.y = g.height / 2 ∧
      (g.checkScoring u q).ball.speed = g.ball.initialSpeed ∧
      (g.checkScoring u q).state =
        (if g.playerScore + 1 ≥ g.targetScore ∨ g.aiScore ≥ g.targetScore
          then GameState.GAME_OVER else g.state)) ∧
    (¬ g.ball.x + g.ball.radius < 0 → ¬ g.width < g.ball.x - g.ball.radius →
      g.checkScoring u q = g) := by
  refine ⟨fun hc => by linarith [hc.1, hc.2], ?_, ?_, checkScoring_none g u q⟩
  · intro h
    rw [checkScoring_aiScores g u q h hr hw]
    obtain ⟨hps, hais, _, _, _, hball⟩ := checkWinCondition_fields
      { g with aiScore := g.aiScore + 1,
               ball := g.ball.reset (g.width / 2) (g.height / 2) u q }
    refine ⟨hais, hps, ?_, ?_, ?_, ?_⟩
    · rw [hball]
      exact (ball_reset_fields _ _ _ _ _).1
    · rw [hball]
      exact (ball_reset_fields _ _ _ _ _).2.1
    · rw [hball]
      exact (ball_reset_fields _ _ _ _ _).2.2.1
    · rw [checkWinCondition_state]
  · intro h
    rw [checkScoring_playerScores g u q h hr hw]
    obtain ⟨hps, hais, _, _, _, hball⟩ := checkWinCondition_fields
      { g with playerScore := g.playerScore + 1,
               ball := g.ball.reset (g.width / 2) (g.height / 2) u q }
    refine ⟨hps, hais, ?_, ?_, ?_, ?_⟩
    · rw [hball]
      exact (ball_reset_fields _ _ _ _ _).1
    · rw [hball]
      exact (ball_reset_fields _ _ _ _ _).2.1
    · rw [hball]
      exact (ball_reset_fields _ _ _ _ _).2.2.1
    · rw [checkWinCondition_state]

/-- Witness for C6 (Scenario 1): after the tick's motion the left-exit
condition holds, the AI score goes 0 → 1, the ball is recentred to
`(400, 200)`, and — since 1 < 10 — the status stays PLAYING. -/
theorem scoring_pass_correct_witness :
    scenario1Moved.ball.x + scenario1Moved.ball.radius < 0 ∧
    (scenario1Moved.checkScoring 0 0).aiScore = 1 ∧
    (scenario1Moved.checkScoring 0 0).playerScore = 0 ∧
    (scenario1Moved.checkScoring 0 0).ball.x = 400 ∧
    (scenario1Moved.checkScoring 0 0).ball.y = 200 ∧
    (scenario1Moved.checkScoring 0 0).state = GameState.PLAYING := by
  have hx : scenario1Moved.ball.x + scenario1Moved.ball.radius < 0 := by
    norm_num [scenario1Moved, scenario1Game, Ball.update]
  obtain ⟨hai, hps, hbx, hby, _, hst⟩ :=
    (scoring_pass_correct scenario1Moved 0 0
      (by norm_num [scenario1Moved, scenario1Game, Ball.update])
      (by norm_num [scenario1Moved, scenario1Game])).2.1 hx
  refine ⟨hx, ?_, ?_, ?_, ?_, ?_⟩
  · rw [hai]
    norm_num [scenario1Moved, scenario1Game]
  · rw [hps]
    norm_num [scenario1Moved, scenario1Game]
  · rw [hbx]
    norm_num [scenario1Moved, scenario1Game]
  · rw [hby]
    norm_num [scenario1Moved, scenario1Game]
  · rw [hst]
    norm_num [scenario1Moved, scenario1Game]

/-! ### Claim C7 -/

/-- `checkWinCondition` reports GAME_OVER exactly when the game was
already over or a score has reached the target. -/
lemma checkWinCondition_gameOver_iff (g : Game) :
    g.checkWinCondition.state = GameState.GAME_OVER ↔
      (g.state = GameState.GAME_OVER ∨
        g.playerScore ≥ g.targetScore ∨ g.aiScore ≥ g.targetScore) := by
  rw [checkWinCondition_state]
  split_ifs with h
  · exact iff_of_true rfl (Or.inr h)
  · constructor
    · exact fun hst => Or.inl hst
    · rintro (hst | hc)
      · exact hst
      · exact absurd hc h

/-- The radius survives `checkWallCollision`. -/
lemma checkWallCollision_radius (b : Ball) :
    b.checkWallCollision.1.radius = b.radius := by
  unfold Ball.checkWallCollision
  dsimp only
  split_ifs <;> rfl

/-- `checkCollisions` touches only the ball, and even there keeps the
radius. -/
lemma checkCollisions_preserves (g : Game) :
    g.checkCollisions.state = g.state ∧
    g.checkCollisions.playerScore = g.playerScore ∧
    g.checkCollisions.aiScore = g.aiScore ∧
    g.checkCollisions.targetScore = g.targetScore ∧
    g.checkCollisions.width = g.width ∧
    g.checkCollisions.ball.radius = g.ball.radius := by
  unfold Game.checkCollisions
  refine ⟨rfl, rfl, rfl, rfl, rfl, ?_⟩
  dsimp only
  have h1 : (g.ball.checkWallCollision.1).radius = g.ball.radius :=
    checkWallCollision_radius g.ball
  rcases hpc1 : g.ball.checkWallCollision.1.checkPaddleCollision g.playerPaddle with _ | hp1
  all_goals simp only [hpc1]
  · rcases hpc2 : g.ball.checkWallCollision.1.checkPaddleCollision g.aiPaddle with _ | hp2
    all_goals simp only [hpc2]
    · exact h1
    · exact h1
  · rcases hpc2 : (g.ball.checkWallCollision.1.applyPaddleHit hp1).checkPaddleCollision
        g.aiPaddle with _ | hp2
    all_goals simp only [hpc2]
    · exact h1
    · exact h1

/-- `checkScoring` can only report GAME_OVER (from a PLAYING game with
sane geometry) when one of its own updated scores has reached the
target. -/
lemma checkScoring_gameOver (g : Game) (u : ℝ) (q : Fin 4)
    (hg : g.state = GameState.PLAYING)
    (hr : 0 ≤ g.ball.radius) (hw : 0 ≤ g.width) :
    (g.checkScoring u q).state = GameState.GAME_OVER →
      (g.checkScoring u q).playerScore ≥ g.targetScore ∨
      (g.checkScoring u q).aiScore ≥ g.targetScore := by
  by_cases h1 : g.ball.x + g.ball.radius < 0
  · rw [checkScoring_aiScores g u q h1 hr hw]
    intro hGO
    rw [checkWinCondition_gameOver_iff] at hGO
    dsimp only at hGO
    rcases hGO with hst | hc
    · rw [hg] at hst
      simp at hst
    · rw [(checkWinCondition_fields _).1, (checkWinCondition_fields _).2.1]
      exact hc
  · by_cases h2 : g.width < g.ball.x - g.ball.radius
    · rw [checkScoring_playerScores g u q h2 hr hw]
      intro hGO
      rw [checkWinCondition_gameOver_iff] at hGO
      dsimp only at hGO
      rcases hGO with hst | hc
      · rw [hg] at hst
        simp at hst
      · rw [(checkWinCondition_fields _).1, (checkWinCondition_fields _).2.1]
        exact hc
    · rw [checkScoring_none g u q h1 h2]
      intro hGO
      rw [hg] at hGO
      simp at hGO

/-- The trailing restart check of `update`: if the result still reports
GAME_OVER, no reset happened and the input game was GAME_OVER. -/
lemma restart_wrapper_gameOver (g' : Game) (c : Prop) [Decidable c]
    (u : ℝ) (q : Fin 4) :
    (if g'.state = GameState.GAME_OVER ∧ c then g'.reset u q else g').state =
        GameState.GAME_OVER →
      (if g'.state = GameState.GAME_OVER ∧ c then g'.reset u q else g') = g' ∧
      g'.state = GameState.GAME_OVER := by
  split_ifs with h
  · intro hGO
    exact absurd hGO (by simp [Game.reset])
  · exact fun hGO => ⟨rfl, hGO⟩

/-- Invariant of the ten-score run: after `k ≤ 10` left exits the AI has
`k` points, the human none, and the status is GAME_OVER exactly at
`k = 10`. -/
lemma scoreRun_invariant (g0 : Game) (balls : ℕ → Ball) (us : ℕ → ℝ) (qs : ℕ → Fin 4)
    (hg : g0.state = GameState.PLAYING) (hp : g0.playerScore = 0)
    (ha : g0.aiScore = 0) (ht : g0.targetScore = 10) (hw : 0 ≤ g0.width)
    (hb : ∀ n, (balls n).x + (balls n).radius < 0 ∧ 0 ≤ (balls n).radius) :
    ∀ k, k ≤ 10 →
      (scoreRun g0 balls us qs k).aiScore = k ∧
      (scoreRun g0 balls us qs k).playerScore = 0 ∧
      (scoreRun g0 balls us qs k).targetScore = 10 ∧
      (scoreRun g0 balls us qs k).width = g0.width ∧
      (scoreRun g0 balls us qs k).state =
        (if k = 10 then GameState.GAME_OVER else GameState.PLAYING) := by
  intro k
  induction k with
  | zero =>
    intro _
    refine ⟨ha, hp, ht, rfl, ?_⟩
    rw [if_neg (by omega)]
    exact hg
  | succ n ih =>
    intro hn
    obtain ⟨ia, ip, it, iw, ist⟩ := ih (by omega)
    have hbn := hb n
    rw [scoreRun, checkScoring_aiScores _ _ _ hbn.1 hbn.2
      (by show 0 ≤ (scoreRun g0 balls us qs n).width; rw [iw]; exact hw)]
    obtain ⟨f1, f2, f3, f4, _, _⟩ := checkWinCondition_fields
      { { scoreRun g0 balls us qs n with ball := balls n } with
          aiScore := ({ scoreRun g0 balls us qs n with ball := balls n } : Game).aiScore + 1,
          ball := ({ scoreRun g0 balls us qs n with ball := balls n } : Game).ball.reset
            (({ scoreRun g0 balls us qs n with ball := balls n } : Game).width / 2)
            (({ scoreRun g0 balls us qs n with ball := balls n } : Game).height / 2)
            (us n) (qs n) }
    refine ⟨?_, ?_, ?_, ?_, ?_⟩
    · rw [f2]
      dsimp only
      rw [ia]
    · rw [f1]
      dsimp only
      exact ip
    · rw [f3]
      dsimp only
      exact it
    · rw [f4]
      dsimp only
      exact iw
    · rw [checkWinCondition_state]
      dsimp only
      rw [ip, it, ia, ist]
      by_cases h10 : n + 1 = 10
      · rw [if_pos (Or.inr (by omega)), if_pos h10]
      · rw [if_neg (by rintro (hcontra | hcontra) <;> omega), if_neg h10,
          if_neg (by omega)]

/-- C7: the match status is a two-state machine.  (i) `checkWinCondition`
moves to GAME_OVER exactly when a score has reached `targetScore`
(touching nothing else); (ii) a PLAYING tick that ends GAME_OVER did so
only because a post-scoring counter reached the target; (iii) out of
GAME_OVER, `update` returns to PLAYING exactly on the restart input;
(iv) ten consecutive AI scores with `targetScore = 10` reach GAME_OVER
exactly once, on the tenth score and never earlier. -/
theorem match_status_state_machine :
    (∀ g : Game,
      (g.checkWinCondition.state = GameState.GAME_OVER ↔
        (g.state = GameState.GAME_OVER ∨
          g.playerScore ≥ g.targetScore ∨ g.aiScore ≥ g.targetScore)) ∧
      g.checkWinCondition.playerScore = g.playerScore ∧
      g.checkWinCondition.aiScore = g.aiScore) ∧
    (∀ (g : Game) (inp : Input) (dt u1 : ℝ) (q1 : Fin 4) (u2 : ℝ) (q2 : Fin 4),
      g.state = GameState.PLAYING → 0 ≤ g.ball.radius → 0 ≤ g.width →
      (g.update inp dt u1 q1 u2 q2).state = GameState.GAME_OVER →
        ((g.update inp dt u1 q1 u2 q2).playerScore ≥ g.targetScore ∨
         (g.update inp dt u1 q1 u2 q2).aiScore ≥ g.targetScore)) ∧
    (∀ (g : Game) (inp : Input) (dt u1 : ℝ) (q1 : Fin 4) (u2 : ℝ) (q2 : Fin 4),
      g.state = GameState.GAME_OVER →
      ((g.update inp dt u1 q1 u2 q2).state = GameState.PLAYING ↔
        (inp.space ∨ inp.touch))) ∧
    (∀ (g0 : Game) (balls : ℕ → Ball) (us : ℕ → ℝ) (qs : ℕ → Fin 4),
      g0.state = GameState.PLAYING → g0.playerScore = 0 → g0.aiScore = 0 →
      g0.targetScore = 10 → 0 ≤ g0.width →
      (∀ n, (balls n).x + (balls n).radius < 0 ∧ 0 ≤ (balls n).radius) →
      ∀ k, k ≤ 10 →
        (scoreRun g0 balls us qs k).state =
          (if k = 10 then GameState.GAME_OVER else GameState.PLAYING)) := by
  refine ⟨?_, ?_, ?_, ?_⟩
  · intro g
    exact ⟨checkWinCondition_gameOver_iff g, (checkWinCondition_fields g).1,
      (checkWinCondition_fields g).2.1⟩
  · intro g inp dt u1 q1 u2 q2 hg hr hw hGO
    unfold Game.update at hGO ⊢
    rw [if_pos hg] at hGO ⊢
    obtain ⟨heq, hGO'⟩ := restart_wrapper_gameOver _ _ u2 q2 hGO
    rw [heq]
    have hpres := checkCollisions_preserves
      { g with playerPaddle := g.playerPaddle.update dt inp.direction,
               aiPaddle := g.aiPaddle.updateAI g.ball dt,
               ball := g.ball.update dt }
    have hradius : 0 ≤ (Game.checkCollisions
        { g with playerPaddle := g.playerPaddle.update dt inp.direction,
                 aiPaddle := g.aiPaddle.updateAI g.ball dt,
                 ball := g.ball.update dt }).ball.radius := by
      rw [hpres.2.2.2.2.2]
      exact hr
    have hwidth : 0 ≤ (Game.checkCollisions
        { g with playerPaddle := g.playerPaddle.update dt inp.direction,
                 aiPaddle := g.aiPaddle.updateAI g.ball dt,
                 ball := g.ball.update dt }).width := by
      rw [hpres.2.2.2.2.1]
      exact hw
    have hstate : (Game.checkCollisions
        { g with playerPaddle := g.playerPaddle.update dt inp.direction,
                 aiPaddle := g.aiPaddle.updateAI g.ball dt,
                 ball := g.ball.update dt }).state = GameState.PLAYING := by
      rw [hpres.1]
      exact hg
    have := checkScoring_gameOver _ u1 q1 hstate hradius hwidth hGO'
    rwa [hpres.2.2.2.1] at this
  · intro g inp dt u1 q1 u2 q2 hg
    unfold Game.update
    rw [if_neg (show ¬ g.state = GameState.PLAYING by rw [hg]; simp)]
    by_cases hin : (inp.space ∨ inp.touch : Prop)
    · rw [if_pos ⟨hg, hin⟩]
      exact iff_of_true rfl hin
    · rw [if_neg (fun hc => hin hc.2)]
      rw [hg]
      exact iff_of_false (by simp) hin
  · intro g0 balls us qs hg hp ha ht hw hb k hk
    exact (scoreRun_invariant g0 balls us qs hg hp ha ht hw hb k hk).2.2.2.2

/-- Witness for C7: from GAME_OVER, an update carrying the restart input
returns to PLAYING. -/
theorem match_status_state_machine_witness :
    (gameOverGame.update ⟨0, true, false⟩ 0 0 0 0 0).state = GameState.PLAYING := by
  exact (match_status_state_machine.2.2.1 gameOverGame ⟨0, true, false⟩ 0 0 0 0 0
    rfl).mpr (Or.inl rfl)

/-! ### Claim C9 -/

/-- C9 counterexample: the source constructors contain no validation path
at all, so they are embedded as total functions.  Constructing a paddle
with negative width and height succeeds and stores the invalid values —
construction produces an object instead of being rejected with a
validation error. -/
theorem constructor_accepts_invalid_config :
    (Paddle.init 0 0 (-5) (-8) 400 false).width = -5 ∧
    (Paddle.init 0 0 (-5) (-8) 400 false).height = -8 :=
  ⟨rfl, rfl⟩

/-- C9 amended: no constructor validates its configuration.
`Paddle.init` stores arbitrary (including non-positive) width and height
unchanged; the ball's radius and the match's `targetScore` are hardcoded
(10 and 10) rather than configurable, so invalid values for them cannot
even arise at construction; no fail-fast validation error exists. -/
theorem constructors_perform_no_validation :
    (∀ (x y w h H : ℝ) (ai : Bool),
      (Paddle.init x y w h H ai).width = w ∧ (Paddle.init x y w h H ai).height = h) ∧
    (∀ (x y W H u : ℝ) (q : Fin 4), (Ball.init x y W H u q).radius = 10) ∧
    (∀ (W H u : ℝ) (q : Fin 4), (Game.init W H u q).targetScore = 10) :=
  ⟨fun _ _ _ _ _ _ => ⟨rfl, rfl⟩, fun _ _ _ _ _ _ => rfl, fun _ _ _ _ => rfl⟩

end Pong

end
